import Mathlib

/-
Verification of the thriftpy IDL parser (src/thriftpy/parser/parser.py).

The development shallowly embeds the semantic actions and helper functions of
the parser. Python runtime values reachable from constant literals are the
inductive type Value below; Python 3 semantics are modelled (in particular,
bool is a subclass of int so isinstance(True, int) is true, and the built-in
map returns a lazy iterator, so a discarded map(...) call performs no work).
Mutable state (the in-place updates that _cast_map and _cast_struct perform on
their argument, and the process-wide include_dir_ global) is made explicit:
the caster returns both its result and the post-call contents of its argument,
and the include-directory global is threaded as an explicit fold over calls.
-/

namespace TP

/-- Python runtime values that constant literals and casts can produce:
bool, int and float literals, strings (LITERAL tokens; also used for byte and
binary constants, which the source checks with isinstance(v, str)), lists,
sets, dicts (insertion-ordered key/value pair lists) and constructed payload
instances (the result of t[1](**v) in _cast_struct, tagged with the class
name). The float payload is modelled as a rational number; only its kind
matters to the parser. -/
inductive Value where
  | vbool (b : Bool)
  | vint (n : Int)
  | vfloat (q : Rat)
  | vstr (s : String)
  | vlist (l : List Value)
  | vset (l : List Value)
  | vmap (entries : List (Value × Value))
  | vinst (cls : String) (fields : List (String × Value))

/-- Type tags as the parser manipulates them. In the source a tag is either a
plain TType integer code (primitives and void) or a pair: (TType.LIST, elem),
(TType.SET, elem), (TType.MAP, (key, val)), (TType.I32, enum-class) for enums
(_make_enum sets _ttype = TType.I32) and (TType.STRUCT, struct-class).
The enum constructor carries the pieces of the generated class that the parser
reads back: its name, its _named_values set and its member attributes; the
struct constructor carries the class name and its _tspec mapping
field-name -> (required, field-type), which is all _cast_struct consults. -/
inductive TypeTag where
  | tbool
  | tbyte
  | ti16
  | ti32
  | ti64
  | tdouble
  | tstring
  | tbinary
  | tvoid
  | tlist (e : TypeTag)
  | tset (e : TypeTag)
  | tmap (k v : TypeTag)
  | tenum (ename : String) (namedValues : List Int) (members : List (String × Int))
  | tstruct (sname : String) (tspec : List (String × Bool × TypeTag))

/-- Errors the constant caster can raise. typeMismatch stands for the
AssertionError a failed assert raises (p_const and p_field catch it and
re-raise ThriftParserError, the TypeMismatchError of the spec); the other
constructors stand for the ThriftParserError raised directly by _cast_enum
and _cast_struct. dispatchError marks the unreachable fall-through of _cast
on TType.VOID, where CPython would raise a TypeError on t[0]. -/
inductive CastErr where
  | typeMismatch
  | dispatchError
  | invalidEnumValue (ename : String) (n : Int)
  | missingRequiredField (fname cls : String)
  | unknownField (key : Value) (cls : String)

/-- Python isinstance(v, int): true for int and for bool, which is a subclass
of int in Python. -/
def isPyInt : Value → Bool
  | .vint _ => true
  | .vbool _ => true
  | _ => false

/-- The integer a Python int-or-bool value stands for (True == 1, False == 0);
none for every other value. -/
def pyIntVal : Value → Option Int
  | .vint n => some n
  | .vbool b => some (if b then 1 else 0)
  | _ => none

/-- Python == on the values that can appear as dict keys or set elements.
Numbers of the three numeric kinds compare by value (1 == True == 1.0) and
strings compare as strings. Containers are unhashable in Python and payload
instances hash by identity, so two such literals never collide as keys; the
model returns false for them. -/
def pyEq (a b : Value) : Bool :=
  match a, b with
  | .vbool x, .vbool y => x == y
  | .vbool x, .vint n => (if x then (1 : Int) else 0) == n
  | .vbool x, .vfloat q => (if x then (1 : Rat) else 0) == q
  | .vint m, .vbool y => m == (if y then 1 else 0)
  | .vint m, .vint n => m == n
  | .vint m, .vfloat q => ((m : Rat)) == q
  | .vfloat p, .vbool y => p == (if y then (1 : Rat) else 0)
  | .vfloat p, .vint n => p == ((n : Rat))
  | .vfloat p, .vfloat q => p == q
  | .vstr s, .vstr t => s == t
  | _, _ => false

/-- The attribute name a dict key contributes when the dict is splatted as
keyword arguments (t[1](**v) in _cast_struct). Only string keys reach that
point: a non-string key cannot be pyEq-equal to any declared field name and
is rejected by the unknown-field check first. -/
def kwName : Value → String
  | .vstr s => s
  | _ => ""

/-- Python set(l): deduplicate by ==. Set iteration order is unspecified in
Python; the model keeps the first occurrence of each element in list order. -/
def pyDedup (l : List Value) : List Value :=
  l.foldl (fun acc x => if acc.any (fun y => pyEq y x) then acc else acc ++ [x]) []

/-- Python `k in d` for a dict modelled as an ordered key/value pair list. -/
def dictContains (entries : List (Value × Value)) (k : Value) : Bool :=
  entries.any (fun e => pyEq e.1 k)

/-- Python d[k] for a dict modelled as an ordered pair list. -/
def dictGet (entries : List (Value × Value)) (k : Value) : Option Value :=
  (entries.find? (fun e => pyEq e.1 k)).map (fun e => e.2)

/-- Python d[k] = v: replace the value at an existing key in place (keeping
its position and original key object), or append a new key at the end. -/
def dictAssign (entries : List (Value × Value)) (k v : Value) : List (Value × Value) :=
  match entries with
  | [] => [(k, v)]
  | e :: rest => if pyEq e.1 k then (e.1, v) :: rest else e :: dictAssign rest k v

/-- Every TypeTag has positive size (used for termination of _cast). -/
theorem TypeTag_sizeOf_pos (t : TypeTag) : 0 < sizeOf t := by
  cases t <;> simp_arith

/-- A field type listed in a struct _tspec is smaller than the whole list
(used for termination of _cast on struct references). -/
theorem sizeOf_field_type_lt {a : String × Bool × TypeTag}
    {l : List (String × Bool × TypeTag)} (h : a ∈ l) : sizeOf a.2.2 < sizeOf l := by
  have h1 := List.sizeOf_lt_of_mem h
  obtain ⟨x, y, z⟩ := a
  simp at h1 ⊢
  omega

/-- _cast_bool: assert isinstance(v, bool); return v. -/
def _cast_bool (v : Value) : Except CastErr (Value × Value) :=
  match v with
  | .vbool _ => .ok (v, v)
  | _ => .error .typeMismatch

/-- _cast_byte: the source asserts isinstance(v, str) (not int); return v. -/
def _cast_byte (v : Value) : Except CastErr (Value × Value) :=
  match v with
  | .vstr _ => .ok (v, v)
  | _ => .error .typeMismatch

/-- _cast_i16 / _cast_i32 / _cast_i64: assert isinstance(v, int); return v.
In Python a bool passes this check. -/
def _cast_int_kind (v : Value) : Except CastErr (Value × Value) :=
  if isPyInt v then .ok (v, v) else .error .typeMismatch

/-- _cast_double: assert isinstance(v, float); return v. An int literal is
not a float, so it is rejected. -/
def _cast_double (v : Value) : Except CastErr (Value × Value) :=
  match v with
  | .vfloat _ => .ok (v, v)
  | _ => .error .typeMismatch

/-- _cast_string and _cast_binary: assert isinstance(v, str); return v. -/
def _cast_string (v : Value) : Except CastErr (Value × Value) :=
  match v with
  | .vstr _ => .ok (v, v)
  | _ => .error .typeMismatch

/-- Inner closure of _cast_list: assert isinstance(v, list), then
map(_cast(t[1]), v) — under Python 3 the map object is lazy and discarded, so
no element is ever cast or validated — and return v unchanged. -/
def _cast_list (v : Value) : Except CastErr (Value × Value) :=
  match v with
  | .vlist _ => .ok (v, v)
  | _ => .error .typeMismatch

/-- Inner closure of _cast_set: assert isinstance(v, (list, set)); the lazy
discarded map again casts no element; a list is coerced to a new set (the
input list itself is left unchanged), a set is returned as-is. -/
def _cast_set (v : Value) : Except CastErr (Value × Value) :=
  match v with
  | .vlist l => .ok (.vset (pyDedup l), v)
  | .vset _ => .ok (v, v)
  | _ => .error .typeMismatch

/-- Inner closure of _cast_enum: assert isinstance(v, int); succeed with v if
v is in the enum class _named_values set, else raise ThriftParserError. -/
def _cast_enum (ename : String) (namedValues : List Int) (v : Value) :
    Except CastErr (Value × Value) :=
  match pyIntVal v with
  | some n =>
      if namedValues.contains n then .ok (v, v)
      else .error (.invalidEnumValue ename n)
  | none => .error .typeMismatch

mutual

/-- Shallow embedding of _cast: dispatch on the type tag and validate/cast the
literal. The result is the pair (returned value, post-call contents of the
argument object): _cast_map and _cast_struct update their argument dict in
place, every other branch leaves the argument as it was. -/
def _cast (t : TypeTag) (v : Value) : Except CastErr (Value × Value) :=
  match t with
  | .tbool => _cast_bool v
  | .tbyte => _cast_byte v
  | .ti16 => _cast_int_kind v
  | .ti32 => _cast_int_kind v
  | .ti64 => _cast_int_kind v
  | .tdouble => _cast_double v
  | .tstring => _cast_string v
  | .tbinary => _cast_string v
  | .tvoid => .error .dispatchError
  | .tlist _ => _cast_list v
  | .tset _ => _cast_set v
  | .tmap kt vt =>
      match v with
      | .vmap entries =>
          match _cast_map_entries kt vt entries entries with
          | .ok st => .ok (.vmap st, .vmap st)
          | .error e => .error e
      | _ => .error .typeMismatch
  | .tenum ename namedValues _ => _cast_enum ename namedValues v
  | .tstruct sname tspec =>
      match v with
      | .vinst cls _ =>
          if cls = sname then .ok (v, v) else .error .typeMismatch
      | .vmap entries =>
          match tspec.find? (fun f => f.2.1 && !(dictContains entries (.vstr f.1))) with
          | some f => .error (.missingRequiredField f.1 sname)
          | none =>
              match _cast_struct_entries sname tspec entries entries with
              | .ok st => .ok (.vinst sname (st.map (fun kv => (kwName kv.1, kv.2))), .vmap st)
              | .error e => .error e
      | _ => .error .typeMismatch
termination_by (sizeOf t, 0)

/-- The loop of the inner closure of _cast_map: for key in v,
v[_cast(kt)(key)] = _cast(vt)(v[key]). The cast of a realizable (hashable)
key returns the key itself, so this overwrites each entry value in place on
the argument dict; todo is the iteration snapshot, acc the dict being
updated. -/
def _cast_map_entries (kt vt : TypeTag) (todo acc : List (Value × Value)) :
    Except CastErr (List (Value × Value)) :=
  match todo with
  | [] => .ok acc
  | kv :: rest =>
      match _cast kt kv.1 with
      | .error e => .error e
      | .ok k2 =>
          match _cast vt kv.2 with
          | .error e => .error e
          | .ok v2 => _cast_map_entries kt vt rest (dictAssign acc k2.1 v2.1)
termination_by (sizeOf kt + sizeOf vt, todo.length + 1)
decreasing_by
all_goals simp_wf
· apply Prod.Lex.left
  have := TypeTag_sizeOf_pos vt
  omega
· apply Prod.Lex.left
  have := TypeTag_sizeOf_pos kt
  omega
· apply Prod.Lex.right
  omega

/-- The value-casting loop of the inner closure of _cast_struct: for key in v,
raise if key is not a declared field, else v[key] = _cast(tspec[key][1])(v[key]),
updating the argument dict in place. -/
def _cast_struct_entries (sname : String) (tspec : List (String × Bool × TypeTag))
    (todo acc : List (Value × Value)) : Except CastErr (List (Value × Value)) :=
  match todo with
  | [] => .ok acc
  | kv :: rest =>
      match tspec.attach.find? (fun f => pyEq kv.1 (.vstr f.1.1)) with
      | none => .error (.unknownField kv.1 sname)
      | some f =>
          match _cast f.1.2.2 kv.2 with
          | .error e => .error e
          | .ok v2 => _cast_struct_entries sname tspec rest (dictAssign acc kv.1 v2.1)
termination_by (sizeOf tspec, todo.length + 1)
decreasing_by
all_goals simp_wf
· apply Prod.Lex.left
  exact sizeOf_field_type_lt f.2
· apply Prod.Lex.right
  omega

end

/-- p_field_req: the token of the requiredness qualifier, when one was
written. p[0] = (p[1] == 'required') when a qualifier is present; an absent
qualifier yields False (the source comments: default: required=False). -/
def p_field_req (qualifier : Option String) : Bool :=
  match qualifier with
  | some s => s == "required"
  | none => false

/-- The list [p[1], p[2], p[3], p[4], val] that p_field produces:
field id, requiredness flag, field type, field name, cast default value. -/
structure FieldAst where
  fid : Int
  req : Bool
  ftype : TypeTag
  fname : String
  fdefault : Option Value

/-- p_field: when a default literal is written it is cast against the field
type first (an AssertionError becomes ThriftParserError: Type error for
field ... — the error aborts the parse either way). -/
def p_field (fid : Int) (req : Bool) (ftype : TypeTag) (fname : String)
    (defaultLit : Option Value) : Except CastErr FieldAst :=
  match defaultLit with
  | some lit =>
      match _cast ftype lit with
      | .ok out => .ok ⟨fid, req, ftype, fname, some out.1⟩
      | .error e => .error e
  | none => .ok ⟨fid, req, ftype, fname, none⟩

/-- Modelled from the spec: the external type-tag namespace TType (thrift.py
is not under src/) supplies fixed integer codes for the kinds; the Apache
Thrift codes are used, BINARY sharing the STRING code. No claim depends on
the particular numbers, only on primitives being plain ints. -/
def TTypeVOID : Nat := 1

def TTypeBOOL : Nat := 2

def TTypeBYTE : Nat := 3

def TTypeDOUBLE : Nat := 4

def TTypeI16 : Nat := 6

def TTypeI32 : Nat := 8

def TTypeI64 : Nat := 10

def TTypeSTRING : Nat := 11

def TTypeBINARY : Nat := 11

def TTypeSTRUCT : Nat := 12

def TTypeMAP : Nat := 13

def TTypeSET : Nat := 14

def TTypeLIST : Nat := 15

/-- The TType integer code of a tag: for a plain-int tag the tag itself, for
a tuple tag its first component; _make_enum stamps enums with _ttype =
TType.I32 and _make_struct stamps structs with TType.STRUCT. -/
def ttypeCode : TypeTag → Nat
  | .tbool => TTypeBOOL
  | .tbyte => TTypeBYTE
  | .ti16 => TTypeI16
  | .ti32 => TTypeI32
  | .ti64 => TTypeI64
  | .tdouble => TTypeDOUBLE
  | .tstring => TTypeSTRING
  | .tbinary => TTypeBINARY
  | .tvoid => TTypeVOID
  | .tlist _ => TTypeLIST
  | .tset _ => TTypeSET
  | .tmap _ _ => TTypeMAP
  | .tenum _ _ _ => TTypeI32
  | .tstruct _ _ => TTypeSTRUCT

/-- The second component ttype[1] of a tuple-shaped tag: the element tag for
list/set, the (key, value) pair for map, the generated class for enum and
struct references. A plain-int tag (primitive or void) has none. -/
inductive SpecPayload where
  | single (t : TypeTag)
  | pair (k v : TypeTag)
  | enumRef (ename : String) (namedValues : List Int) (members : List (String × Int))
  | structRef (sname : String) (tspec : List (String × Bool × TypeTag))

def typePayload : TypeTag → Option SpecPayload
  | .tlist e => some (.single e)
  | .tset e => some (.single e)
  | .tmap k v => some (.pair k v)
  | .tenum n nv m => some (.enumRef n nv m)
  | .tstruct n ts => some (.structRef n ts)
  | _ => none

/-- A thrift_spec entry: _ttype_spec returns the 3-tuple
(ttype, name, required) when the tag is a plain int, and the 4-tuple
(ttype[0], name, ttype[1], required) otherwise. -/
inductive FieldSpec where
  | prim (code : Nat) (fname : String) (required : Bool)
  | comp (code : Nat) (fname : String) (payload : SpecPayload) (required : Bool)

/-- _ttype_spec(ttype, name, required=False). -/
def _ttype_spec (t : TypeTag) (fname : String) (required : Bool) : FieldSpec :=
  match typePayload t with
  | none => .prim (ttypeCode t) fname required
  | some pl => .comp (ttypeCode t) fname pl required

/-- Python d[k] = s on the integer-keyed thrift_spec dict. -/
def dictAssignInt (d : List (Int × FieldSpec)) (k : Int) (s : FieldSpec) :
    List (Int × FieldSpec) :=
  match d with
  | [] => [(k, s)]
  | e :: rest => if e.1 == k then (e.1, s) :: rest else e :: dictAssignInt rest k s

/-- Python d[k] on the integer-keyed thrift_spec dict. -/
def dictGetInt (d : List (Int × FieldSpec)) (k : Int) : Option FieldSpec :=
  (d.find? (fun e => e.1 == k)).map (fun e => e.2)

/-- Python d[k] = s on the string-keyed _tspec dict. -/
def dictAssignStr (d : List (String × Bool × TypeTag)) (k : String)
    (s : Bool × TypeTag) : List (String × Bool × TypeTag) :=
  match d with
  | [] => [(k, s.1, s.2)]
  | e :: rest => if e.1 == k then (e.1, s.1, s.2) :: rest else e :: dictAssignStr rest k s

/-- The class _make_struct generates: __name__, the id-keyed thrift_spec
dict, the declaration-ordered default_spec list, the name-keyed _tspec dict,
its _ttype code and the oneway attribute (absent on ordinary structs,
modelled as false; _make_service overwrites it on result classes). The
external base-class behavior (TPayload/TException, gen_init) builds the
runtime record type from these and is out of scope. -/
structure StructDescr where
  sname : String
  thrift_spec : List (Int × FieldSpec)
  default_spec : List (String × Option Value)
  tspec : List (String × Bool × TypeTag)
  ttype : Nat
  oneway : Bool

/-- _make_struct(name, fields, ttype=TType.STRUCT): one pass over the field
lists fills thrift_spec, default_spec and _tspec in declaration order
(duplicate ids or names overwrite dict-style, keeping the first position). -/
def _make_struct (sname : String) (fields : List FieldAst) : StructDescr :=
  ⟨sname,
   fields.foldl (fun d f => dictAssignInt d f.fid (_ttype_spec f.ftype f.fname f.req)) [],
   fields.map (fun f => (f.fname, f.fdefault)),
   fields.foldl (fun d f => dictAssignStr d f.fname (f.req, f.ftype)) [],
   TTypeSTRUCT,
   false⟩

/-- The struct class as a field-type tag: p_ref_type pairs the class with its
_ttype, and _cast_struct reads back __name__ and _tspec. -/
def StructDescr.toTag (s : StructDescr) : TypeTag :=
  .tstruct s.sname s.tspec

/-- The list [oneway, function_type, name, arg fields, throws fields] that
p_function produces (p_function_type turns void into TType.VOID, here
TypeTag.tvoid). -/
structure FuncAst where
  oneway : Bool
  rettype : TypeTag
  mname : String
  args : List FieldAst
  throwsF : List FieldAst

/-- The pair of envelope classes _make_service attaches per declared method:
the name_args payload class and the name_result payload class. -/
structure MethodClasses where
  mname : String
  args_cls : StructDescr
  result_cls : StructDescr

/-- The service class: its per-method envelope classes and the
thrift_services list of its own method names. The extends target becomes the
base class of the generated type; no claim depends on inherited attribute
lookup, so the parent reference is not modelled here. -/
structure ServiceDescr where
  sname : String
  methods : List MethodClasses
  thrift_services : List String

/-- _make_service: for each function build name_args from the parameters and
name_result from the throws fields, then set oneway on the result class,
assign thrift_spec[0] = _ttype_spec(result_type, 'success') — unconditionally,
with no void check, so a new key 0 is appended after the throws entries — and
insert ('success', None) at the front of default_spec. -/
def _make_service (sname : String) (funcs : List FuncAst) : ServiceDescr :=
  ⟨sname,
   funcs.map (fun f =>
     let args_cls := _make_struct (f.mname ++ "_args") f.args
     let r0 := _make_struct (f.mname ++ "_result") f.throwsF
     let result_cls : StructDescr :=
       ⟨r0.sname,
        dictAssignInt r0.thrift_spec 0 (_ttype_spec f.rettype "success" false),
        ("success", none) :: r0.default_spec,
        r0.tspec,
        r0.ttype,
        f.oneway⟩
     ⟨f.mname, args_cls, result_cls⟩),
   funcs.map (fun f => f.mname)⟩

/-- The value-assignment loop of _make_enum: val starts as described in
enumAssign; an unlabeled member receives val + 1 and val tracks the value of
the member just processed. -/
def enumAutoGo (val : Int) : List (String × Option Int) → List (String × Int)
  | [] => []
  | kv :: rest =>
      match kv.2 with
      | some v => (kv.1, v) :: enumAutoGo v rest
      | none => (kv.1, val + 1) :: enumAutoGo (val + 1) rest

/-- The member values _make_enum assigns: val is initialized to the first
member's explicit value, or to -1 when the first member is unlabeled, and the
loop of enumAutoGo runs over all members. -/
def enumAssign (kvs : List (String × Option Int)) : List (String × Int) :=
  match kvs with
  | [] => []
  | kv0 :: _ =>
      enumAutoGo (match kv0.2 with | none => -1 | some v => v) kvs

/-- _make_enum(name, kvs): _named_values is the set of the values that were
written explicitly — it is collected from kvs BEFORE the auto-numbering loop
fills in the missing ones — and the member attributes are set from the
auto-numbered list. The Python set is modelled as the list of explicit
values; only membership is ever consulted. -/
def _make_enum (ename : String) (kvs : List (String × Option Int)) : TypeTag :=
  .tenum ename (kvs.filterMap (fun kv => kv.2)) (enumAssign kvs)

/-- The (name, value) member attributes of a generated enum class. -/
def enumMembers : TypeTag → List (String × Int)
  | .tenum _ _ m => m
  | _ => []

/-- The _named_values attribute of a generated enum class. -/
def enumNamedValues : TypeTag → List Int
  | .tenum _ nv _ => nv
  | _ => []

/-- A member of a module namespace: a constant value, a type (typedef target,
enum class or struct class) or a nested module attached by include. -/
inductive Entity where
  | const (v : Value)
  | etype (t : TypeTag)
  | emodule (mname : String) (members : List (String × Entity))

/-- getattr on the module object at the top of the stack. -/
def modAttr (m : List (String × Entity)) (s : String) : Option Entity :=
  (m.find? (fun kv => kv.1 == s)).map (fun kv => kv.2)

/-- getattr on an arbitrary resolved entity: attributes of a nested module
are its members, attributes of an enum class are its named member values
(plain ints), everything else exposes no attribute the resolver reads. -/
def egetattr : Entity → String → Option Entity
  | .emodule _ ms, s => (ms.find? (fun kv => kv.1 == s)).map (fun kv => kv.2)
  | .etype (.tenum _ _ members), s =>
      (members.find? (fun kv => kv.1 == s)).map (fun kv => .const (.vint kv.2))
  | _, _ => none

/-- Python identifier.split('.') on the character list of the identifier. -/
def splitDotsAux (acc : List Char) : List Char → List String
  | [] => [String.mk acc.reverse]
  | c :: rest =>
      if c = '.' then String.mk acc.reverse :: splitDotsAux [] rest
      else splitDotsAux (c :: acc) rest

def splitDots (s : String) : List String :=
  splitDotsAux [] s.data

/-- Errors of the name resolvers (both ThriftParserError in the source). -/
inductive ParseErr where
  | unresolvedRef (path : String)
  | noTypeFound (path : String)
deriving DecidableEq

/-- The body of p_const_ref after the split: a single segment resolves as a
module attribute; exactly two segments resolve as an attribute of an
attribute (the EnumName.MEMBER case); every other length — including fully
resolvable paths of three or more segments — falls through to the raise. -/
def constRefKeys (thrift : List (String × Entity)) (keys : List String)
    (ident : String) : Except ParseErr Entity :=
  match keys with
  | [k] =>
      match modAttr thrift k with
      | some e => .ok e
      | none => .error (.unresolvedRef ident)
  | [k1, k2] =>
      match modAttr thrift k1 with
      | some e =>
          match egetattr e k2 with
          | some e2 => .ok e2
          | none => .error (.unresolvedRef ident)
      | none => .error (.unresolvedRef ident)
  | _ => .error (.unresolvedRef ident)

/-- p_const_ref: split the identifier on dots and resolve. -/
def p_const_ref (thrift : List (String × Entity)) (ident : String) :
    Except ParseErr Entity :=
  constRefKeys thrift (splitDots ident) ident

/-- The loop of p_ref_type: walk every segment with getattr, raising as soon
as one is missing. (The source then returns (child._ttype, child) when the
final entity carries a _ttype; in this model a class and its tag are the same
Entity.etype value, so the walk result is returned directly.) -/
def refTypeWalk (father : Entity) (ident : String) : List String → Except ParseErr Entity
  | [] => .ok father
  | k :: rest =>
      match egetattr father k with
      | some child => refTypeWalk child ident rest
      | none => .error (.noTypeFound ident)

/-- p_ref_type: resolve a dotted type reference by walking the whole path
from the current module. -/
def p_ref_type (thrift : List (String × Entity)) (ident : String) :
    Except ParseErr Entity :=
  refTypeWalk (.emodule "" thrift) ident (splitDots ident)

/-- The module-level default of the include_dir_ global. -/
def includeDirDefault : String := "."

/-- The assignment parse() performs on the include_dir_ global: only a call
that passes include_dir is not None overwrites it; an omitted argument leaves
the previous value in place. -/
def parseUpdateIncludeDir (cur : String) (arg : Option String) : String :=
  match arg with
  | some d => d
  | none => cur

/-- The value of the include_dir_ global after a sequence of parse() calls,
each recorded by its include_dir argument (none when omitted). -/
def includeDirAfter (calls : List (Option String)) : String :=
  calls.foldl parseUpdateIncludeDir includeDirDefault

/-- os.path.join(include_dir_, p[2]) as p_include computes the path of an
included file (POSIX join, for the shapes of path that occur here). -/
def pathJoin (dir p : String) : String :=
  if p.data.head? = some '/' then p
  else if dir = "" ∨ dir.data.getLast? = some '/' then dir ++ p
  else dir ++ "/" ++ p

/-- The path p_include hands to the recursive parse() call. -/
def includeResolve (includeDir fname : String) : String :=
  pathJoin includeDir fname

/-- Assigning a key in a thrift_spec dict makes the lookup of that key return
the assigned entry, whether the key was present or not. -/
theorem dictGetInt_assign_self (d : List (Int × FieldSpec)) (k : Int) (s : FieldSpec) :
    dictGetInt (dictAssignInt d k s) k = some s := by
  induction d with
  | nil => simp [dictAssignInt, dictGetInt]
  | cons e rest ih =>
    by_cases hek : e.1 == k
    · simp [dictAssignInt, dictGetInt, hek, List.find?]
    · simp only [dictAssignInt, hek, Bool.false_eq_true, if_false]
      simpa [dictGetInt, List.find?, hek] using ih

/-- C1: the element validation of list and set constants. The spec says every
element is validated against the element TypeTag and a mismatched element
raises TypeMismatchError; in the source the per-element casts are only ever
mentioned as map(_cast(t[1]), v), whose lazy Python 3 map object is discarded
unconsumed, so the literal is returned with no element checked: a string
element passes unrejected where a bare i32 cast of the same element fails. -/
theorem c1_list_cast_skips_element_validation :
    _cast (.tlist .ti32) (.vlist [.vstr "x"]) = .ok (.vlist [.vstr "x"], .vlist [.vstr "x"])
    ∧ _cast (.tset .ti32) (.vlist [.vstr "x"]) = .ok (.vset [.vstr "x"], .vlist [.vstr "x"])
    ∧ _cast .ti32 (.vstr "x") = .error .typeMismatch := by
  refine ⟨?_, ?_, ?_⟩ <;>
    simp [_cast, _cast_list, _cast_set, _cast_int_kind, isPyInt, pyDedup, pyEq]

/-- C2: the defined-values set of an enum versus its members. _make_enum
collects _named_values from the explicit labels before the auto-numbering
loop runs, so the values of auto-numbered members are missing from it:
enum E with three unlabeled members A, B, C gets members A=0, B=1, C=2 but an
empty _named_values set, and casting the member value 0 against the enum
raises InvalidEnumValueError instead of succeeding. -/
theorem c2_auto_numbered_values_rejected :
    enumMembers (_make_enum "E" [("A", none), ("B", none), ("C", none)])
      = [("A", 0), ("B", 1), ("C", 2)]
    ∧ enumNamedValues (_make_enum "E" [("A", none), ("B", none), ("C", none)]) = []
    ∧ _cast (_make_enum "E" [("A", none), ("B", none), ("C", none)]) (.vint 0)
      = .error (.invalidEnumValue "E" 0) := by
  refine ⟨rfl, rfl, ?_⟩
  simp [_make_enum, _cast, _cast_enum, pyIntVal, enumAssign, enumAutoGo]

/-- C3 counterexample: a oneway void f() method. The synthesized f_result
descriptor does not have zero usable fields: _make_service assigns
thrift_spec[0] = _ttype_spec(result_type, 'success') without checking for
void, so the descriptor carries a success field of type void (and a
('success', None) default entry), refuting the claim that the success field
is present only when the return type is not void. -/
theorem c3_counterexample :
    ((_make_service "S" [⟨true, .tvoid, "f", [], []⟩]).methods.map
        (fun mc => mc.result_cls.thrift_spec))
      = [[(0, .prim TTypeVOID "success" false)]]
    ∧ ((_make_service "S" [⟨true, .tvoid, "f", [], []⟩]).methods.map
        (fun mc => mc.result_cls.default_spec))
      = [[("success", none)]]
    ∧ ((_make_service "S" [⟨true, .tvoid, "f", [], []⟩]).methods.map
        (fun mc => mc.result_cls.oneway)) = [true]
    ∧ ((_make_service "S" [⟨true, .tvoid, "f", [], []⟩]).methods.map
        (fun mc => mc.result_cls.thrift_spec)) ≠ [[]] := by
  have h1 : ((_make_service "S" [⟨true, .tvoid, "f", [], []⟩]).methods.map
      (fun mc => mc.result_cls.thrift_spec)) = [[(0, .prim TTypeVOID "success" false)]] := rfl
  refine ⟨h1, rfl, rfl, ?_⟩
  rw [h1]
  simp

/-- C3 as amended: for every declared method — void-returning and oneway ones
included — the synthesized result descriptor maps field id 0 to a field named
success of the declared return type with required = false, carries
('success', none) at the head of its default list, and stores the declared
oneway flag. -/
theorem c3_amended (ow : Bool) (rt : TypeTag) (nm : String)
    (args throwsF : List FieldAst) :
    ∃ mc : MethodClasses,
      (_make_service "S" [⟨ow, rt, nm, args, throwsF⟩]).methods = [mc]
      ∧ dictGetInt mc.result_cls.thrift_spec 0 = some (_ttype_spec rt "success" false)
      ∧ mc.result_cls.default_spec.head? = some ("success", none)
      ∧ mc.result_cls.oneway = ow := by
  refine ⟨_, rfl, ?_, rfl, rfl⟩
  exact dictGetInt_assign_self _ 0 _

/-- C4 counterexample: the struct S with the two unqualified fields
1: i32 a; 2: string b;. p_field_req maps an absent qualifier to False, so
both built fields carry required = false, refuting the claim that both carry
required = true (the descriptor does hold exactly the two fields in id
order). -/
theorem c4_counterexample :
    p_field 1 (p_field_req none) .ti32 "a" none = .ok ⟨1, false, .ti32, "a", none⟩
    ∧ p_field 2 (p_field_req none) .tstring "b" none = .ok ⟨2, false, .tstring, "b", none⟩
    ∧ (_make_struct "S" [⟨1, false, .ti32, "a", none⟩, ⟨2, false, .tstring, "b", none⟩]).thrift_spec
      = [(1, .prim TTypeI32 "a" false), (2, .prim TTypeSTRING "b" false)]
    ∧ (_make_struct "S" [⟨1, false, .ti32, "a", none⟩, ⟨2, false, .tstring, "b", none⟩]).thrift_spec
      ≠ [(1, .prim TTypeI32 "a" true), (2, .prim TTypeSTRING "b" true)] := by
  have h3 : (_make_struct "S" [⟨1, false, .ti32, "a", none⟩,
      ⟨2, false, .tstring, "b", none⟩]).thrift_spec
      = [(1, .prim TTypeI32 "a" false), (2, .prim TTypeSTRING "b" false)] := rfl
  refine ⟨rfl, rfl, h3, ?_⟩
  rw [h3]
  simp

/-- C4 as amended: parsing struct S with 1: i32 a; 2: string b; yields a
descriptor with exactly the two fields, indexed in that id order, and — the
fields being written without a requiredness qualifier — both carry
required = false. -/
theorem c4_amended :
    (_make_struct "S" [⟨1, p_field_req none, .ti32, "a", none⟩,
        ⟨2, p_field_req none, .tstring, "b", none⟩]).thrift_spec
      = [(1, .prim TTypeI32 "a" false), (2, .prim TTypeSTRING "b" false)]
    ∧ (_make_struct "S" [⟨1, p_field_req none, .ti32, "a", none⟩,
        ⟨2, p_field_req none, .tstring, "b", none⟩]).default_spec
      = [("a", none), ("b", none)]
    ∧ (_make_struct "S" [⟨1, p_field_req none, .ti32, "a", none⟩,
        ⟨2, p_field_req none, .tstring, "b", none⟩]).tspec
      = [("a", false, .ti32), ("b", false, .tstring)] :=
  ⟨rfl, rfl, rfl⟩

/-- C9 counterexample: parse is called once with include_dir = /foo and then
again with include_dir omitted. The include_dir_ global keeps /foo, so a
relative include a.thrift in the second parse resolves to /foo/a.thrift and
not to ./a.thrift as the claim (resolution against the current directory
regardless of earlier calls) requires. -/
theorem c9_counterexample :
    includeDirAfter [some "/foo", none] = "/foo"
    ∧ includeResolve (includeDirAfter [some "/foo", none]) "a.thrift" = "/foo/a.thrift"
    ∧ includeResolve includeDirDefault "a.thrift" = "./a.thrift"
    ∧ ("/foo/a.thrift" : String) ≠ "./a.thrift" := by
  refine ⟨rfl, rfl, rfl, ?_⟩
  decide

/-- C9 as amended: omitting include_dir leaves the process-wide include
directory unchanged, so relative includes resolve against the most recently
supplied include_dir of any earlier parse call; only when no call ever
supplied one does the module-level default, the current directory, apply. -/
theorem c9_amended (calls : List (Option String)) (d : String) :
    includeDirAfter (calls ++ [none]) = includeDirAfter calls
    ∧ includeDirAfter (calls ++ [some d]) = d
    ∧ includeDirAfter [] = includeDirDefault
    ∧ includeDirDefault = "." := by
  refine ⟨?_, ?_, rfl, rfl⟩ <;>
    simp [includeDirAfter, List.foldl_append, parseUpdateIncludeDir]

/-- C10: the requiredness flag of a built field is true exactly when the
literal qualifier required is written; an absent qualifier and the qualifier
optional both produce required = false, and the fields p_field builds from
an optional-qualified and an unqualified declaration are identical, so the
descriptor cannot distinguish them. -/
theorem c10_field_requiredness :
    (∀ s : String, p_field_req (some s) = true ↔ s = "required")
    ∧ p_field_req (some "optional") = false
    ∧ p_field_req none = false
    ∧ (∀ (fid : Int) (t : TypeTag) (nm : String) (dv : Option Value),
        p_field fid (p_field_req (some "optional")) t nm dv
          = p_field fid (p_field_req none) t nm dv) := by
  refine ⟨?_, rfl, rfl, ?_⟩
  · intro s
    simp [p_field_req]
  · intro fid t nm dv
    rfl

/-- C5 counterexample: a module holding a nested module child that holds an
enum E with member M = 1. Walking the three segments of child.E.M resolves
(p_ref_type reaches the member value 1), yet p_const_ref raises the
unresolved-reference error for the very same path, because its resolution
only handles paths of exactly one or two segments. -/
theorem c5_counterexample :
    p_const_ref [("child", .emodule "child" [("E", .etype (_make_enum "E" [("M", some 1)]))])]
        "child.E.M"
      = .error (.unresolvedRef "child.E.M")
    ∧ p_ref_type [("child", .emodule "child" [("E", .etype (_make_enum "E" [("M", some 1)]))])]
        "child.E.M"
      = .ok (.const (.vint 1)) :=
  ⟨rfl, rfl⟩

/-- C5 as amended: a constant reference resolves only one-segment paths (a
module attribute) and two-segment paths (an attribute of an attribute, the
EnumName.MEMBER case); every path of three or more segments raises the
unresolved-reference error carrying the offending path, even when walking
each segment in turn would resolve, as the type resolver p_ref_type does. -/
theorem c5_amended :
    (∀ (m : List (String × Entity)) (keys : List String) (ident : String),
        3 ≤ keys.length → constRefKeys m keys ident = .error (.unresolvedRef ident))
    ∧ (∀ (m : List (String × Entity)) (k ident : String),
        constRefKeys m [k] ident =
          (match modAttr m k with
           | some e => .ok e
           | none => .error (.unresolvedRef ident)))
    ∧ (∀ (m : List (String × Entity)) (k1 k2 ident : String),
        constRefKeys m [k1, k2] ident =
          (match modAttr m k1 with
           | some e =>
               (match egetattr e k2 with
                | some e2 => .ok e2
                | none => .error (.unresolvedRef ident))
           | none => .error (.unresolvedRef ident))) := by
  refine ⟨?_, ?_, ?_⟩
  · intro m keys ident h
    match keys with
    | [] => simp at h
    | [k1] => simp at h
    | [k1, k2] => simp at h
    | k1 :: k2 :: k3 :: rest => rfl
  · intro m k ident
    rfl
  · intro m k1 k2 ident
    rfl

/-- Witness for c5_amended at a concrete three-segment path. -/
theorem c5_amended_witness :
    3 ≤ (["a", "b", "c"] : List String).length
    ∧ constRefKeys [] ["a", "b", "c"] "a.b.c" = .error (.unresolvedRef "a.b.c") :=
  ⟨by decide, c5_amended.1 [] ["a", "b", "c"] "a.b.c" (by decide)⟩

/-- The Python runtime kind of a value, as the primitive casts test it. -/
def isBoolV : Value → Bool
  | .vbool _ => true
  | _ => false

def isIntV : Value → Bool
  | .vint _ => true
  | _ => false

def isFloatV : Value → Bool
  | .vfloat _ => true
  | _ => false

def isStrV : Value → Bool
  | .vstr _ => true
  | _ => false

/-- C6 counterexample: a boolean literal cast against the integer types. In
Python bool is a subclass of int, so isinstance(True, int) holds and
_cast_i16/_cast_i32/_cast_i64 accept the boolean and return it instead of
raising the TypeMismatchError the claim requires. -/
theorem c6_counterexample :
    _cast .ti32 (.vbool true) = .ok (.vbool true, .vbool true)
    ∧ _cast .ti16 (.vbool true) = .ok (.vbool true, .vbool true)
    ∧ _cast .ti64 (.vbool true) = .ok (.vbool true, .vbool true)
    ∧ _cast .ti32 (.vbool true) ≠ .error .typeMismatch := by
  refine ⟨?_, ?_, ?_, ?_⟩ <;> simp [_cast, _cast_int_kind, isPyInt]

/-- C6 as amended: each primitive cast succeeds exactly on the runtime kinds
its isinstance assert accepts, returning the literal unchanged, and raises
TypeMismatchError otherwise: bool accepts only bool; i16/i32/i64 accept int
and also bool (a runtime subtype of int); double accepts only float (an int
literal is rejected); string and binary accept only str, and so does byte,
whose assert in the source tests str rather than int. -/
theorem c6_amended (v : Value) :
    _cast .tbool v = (if isBoolV v then .ok (v, v) else .error .typeMismatch)
    ∧ _cast .ti16 v = (if isIntV v || isBoolV v then .ok (v, v) else .error .typeMismatch)
    ∧ _cast .ti32 v = (if isIntV v || isBoolV v then .ok (v, v) else .error .typeMismatch)
    ∧ _cast .ti64 v = (if isIntV v || isBoolV v then .ok (v, v) else .error .typeMismatch)
    ∧ _cast .tdouble v = (if isFloatV v then .ok (v, v) else .error .typeMismatch)
    ∧ _cast .tstring v = (if isStrV v then .ok (v, v) else .error .typeMismatch)
    ∧ _cast .tbinary v = (if isStrV v then .ok (v, v) else .error .typeMismatch)
    ∧ _cast .tbyte v = (if isStrV v then .ok (v, v) else .error .typeMismatch) := by
  cases v <;>
    simp [_cast, _cast_bool, _cast_byte, _cast_int_kind, _cast_double, _cast_string,
      isPyInt, isBoolV, isIntV, isFloatV, isStrV]

/-- C7 counterexample: a map literal with an i32 key and a set-typed value
given as a list literal. The cast succeeds, but the returned dict is the
input dict updated in place: its entry now holds the coerced set, so the
original mapping is not left unchanged. -/
theorem c7_counterexample :
    _cast (.tmap .ti32 (.tset .ti32)) (.vmap [(.vint 1, .vlist [.vint 2, .vint 3])])
      = .ok (.vmap [(.vint 1, .vset [.vint 2, .vint 3])],
             .vmap [(.vint 1, .vset [.vint 2, .vint 3])])
    ∧ (Value.vmap [(.vint 1, .vset [.vint 2, .vint 3])])
        ≠ .vmap [(.vint 1, .vlist [.vint 2, .vint 3])] := by
  constructor
  · simp [_cast, _cast_map_entries, _cast_set, _cast_int_kind, isPyInt, pyDedup, pyEq,
      dictAssign]
  · simp

/-- The type tags whose cast updates its argument dict in place. -/
def topIsMapOrStruct : TypeTag → Bool
  | .tmap _ _ => true
  | .tstruct _ _ => true
  | _ => false

/-- C7 as amended: for every type tag other than a map or a struct reference,
a successful cast leaves the argument exactly as it was (the set case returns
a freshly built set, leaving the input list untouched); the map and
struct-literal casts, however, overwrite each entry of the argument mapping
with its cast value in place, as c7_counterexample exhibits. -/
theorem c7_amended (t : TypeTag) (v r p : Value) (h1 : topIsMapOrStruct t = false)
    (h2 : _cast t v = .ok (r, p)) : p = v := by
  cases t with
  | tmap kt vt => simp [topIsMapOrStruct] at h1
  | tstruct sn ts => simp [topIsMapOrStruct] at h1
  | tvoid => simp [_cast] at h2
  | tenum en nv mem =>
    cases v with
    | vbool b =>
      cases b <;> simp [_cast, _cast_enum, pyIntVal] at h2 <;> split at h2 <;>
        simp at h2 <;> exact h2.2.symm
    | vint n =>
      simp [_cast, _cast_enum, pyIntVal] at h2
      split at h2 <;> simp at h2
      exact h2.2.symm
    | vfloat q => simp [_cast, _cast_enum, pyIntVal] at h2
    | vstr s => simp [_cast, _cast_enum, pyIntVal] at h2
    | vlist l => simp [_cast, _cast_enum, pyIntVal] at h2
    | vset l => simp [_cast, _cast_enum, pyIntVal] at h2
    | vmap es => simp [_cast, _cast_enum, pyIntVal] at h2
    | vinst c fs => simp [_cast, _cast_enum, pyIntVal] at h2
  | tbool => cases v <;> simp [_cast, _cast_bool] at h2 <;> exact h2.2.symm
  | tbyte => cases v <;> simp [_cast, _cast_byte] at h2 <;> exact h2.2.symm
  | ti16 => cases v <;> simp [_cast, _cast_int_kind, isPyInt] at h2 <;> exact h2.2.symm
  | ti32 => cases v <;> simp [_cast, _cast_int_kind, isPyInt] at h2 <;> exact h2.2.symm
  | ti64 => cases v <;> simp [_cast, _cast_int_kind, isPyInt] at h2 <;> exact h2.2.symm
  | tdouble => cases v <;> simp [_cast, _cast_double] at h2 <;> exact h2.2.symm
  | tstring => cases v <;> simp [_cast, _cast_string] at h2 <;> exact h2.2.symm
  | tbinary => cases v <;> simp [_cast, _cast_string] at h2 <;> exact h2.2.symm
  | tlist e => cases v <;> simp [_cast, _cast_list] at h2 <;> exact h2.2.symm
  | tset e => cases v <;> simp [_cast, _cast_set] at h2 <;> exact h2.2.symm

/-- Witness for c7_amended at a concrete set-typed cast. -/
theorem c7_amended_witness :
    topIsMapOrStruct (.tset .ti32) = false
    ∧ _cast (.tset .ti32) (.vlist [.vint 1, .vint 1])
        = .ok (.vset [.vint 1], .vlist [.vint 1, .vint 1])
    ∧ (Value.vlist [.vint 1, .vint 1]) = .vlist [.vint 1, .vint 1] := by
  refine ⟨rfl, ?_, ?_⟩
  · simp [_cast, _cast_set, pyDedup, pyEq]
  · exact c7_amended (.tset .ti32) (.vlist [.vint 1, .vint 1]) (.vset [.vint 1])
      (.vlist [.vint 1, .vint 1]) rfl (by simp [_cast, _cast_set, pyDedup, pyEq])

/-- A member with an explicit label keeps its value, whatever val is. -/
theorem enumAutoGo_labeled (kvs : List (String × Option Int)) :
    ∀ (val : Int) (i : Nat) (nm : String) (v : Int),
      kvs[i]? = some (nm, some v) → (enumAutoGo val kvs)[i]? = some (nm, v) := by
  induction kvs with
  | nil =>
    intro val i nm v h
    simp at h
  | cons kv rest ih =>
    intro val i nm v h
    cases i with
    | zero =>
      rw [List.getElem?_cons_zero] at h
      injection h with h
      subst h
      simp [enumAutoGo]
    | succ j =>
      rw [List.getElem?_cons_succ] at h
      obtain ⟨nm0, o0⟩ := kv
      cases o0 with
      | none => simpa [enumAutoGo] using ih (val + 1) j nm v h
      | some v0 => simpa [enumAutoGo] using ih v0 j nm v h

/-- An unlabeled member at the head of the loop receives val + 1. -/
theorem enumAutoGo_head_none (val : Int) (kvs : List (String × Option Int)) (nm : String)
    (h : kvs[0]? = some (nm, none)) : (enumAutoGo val kvs)[0]? = some (nm, val + 1) := by
  cases kvs with
  | nil => simp at h
  | cons kv rest =>
    rw [List.getElem?_cons_zero] at h
    injection h with h
    subst h
    simp [enumAutoGo]

/-- An unlabeled member after the first position receives its predecessor's
assigned value plus one. -/
theorem enumAutoGo_succ_none (kvs : List (String × Option Int)) :
    ∀ (val : Int) (i : Nat) (nm pn : String) (pv : Int),
      kvs[i + 1]? = some (nm, none) → (enumAutoGo val kvs)[i]? = some (pn, pv) →
      (enumAutoGo val kvs)[i + 1]? = some (nm, pv + 1) := by
  induction kvs with
  | nil =>
    intro val i nm pn pv h1 h2
    simp at h1
  | cons kv rest ih =>
    intro val i nm pn pv h1 h2
    rw [List.getElem?_cons_succ] at h1
    obtain ⟨nm0, o0⟩ := kv
    cases o0 with
    | none =>
      cases i with
      | zero =>
        simp only [enumAutoGo, List.getElem?_cons_zero, Option.some.injEq] at h2
        obtain ⟨h2a, h2b⟩ := Prod.mk.injEq .. ▸ h2
        subst h2b
        simpa [enumAutoGo] using enumAutoGo_head_none (val + 1) rest nm h1
      | succ j =>
        simp only [enumAutoGo, List.getElem?_cons_succ] at h2 ⊢
        exact ih (val + 1) j nm pn pv h1 h2
    | some v0 =>
      cases i with
      | zero =>
        simp only [enumAutoGo, List.getElem?_cons_zero, Option.some.injEq] at h2
        obtain ⟨h2a, h2b⟩ := Prod.mk.injEq .. ▸ h2
        subst h2b
        simpa [enumAutoGo] using enumAutoGo_head_none v0 rest nm h1
      | succ j =>
        simp only [enumAutoGo, List.getElem?_cons_succ] at h2 ⊢
        exact ih v0 j nm pn pv h1 h2

/-- C8: enum auto-numbering. A labeled member keeps its explicit value; an
unlabeled member in the first position receives 0 (val is initialized to -1
when the first member is unlabeled); every later unlabeled member receives
its predecessor's assigned value plus one; and concretely
enum E with A, B, C yields A=0, B=1, C=2 while A = 5, B yields B=6. -/
theorem c8_enum_auto_numbering :
    (∀ (kvs : List (String × Option Int)) (i : Nat) (nm : String) (v : Int),
        kvs[i]? = some (nm, some v) → (enumAssign kvs)[i]? = some (nm, v))
    ∧ (∀ (kvs : List (String × Option Int)) (nm : String),
        kvs[0]? = some (nm, none) → (enumAssign kvs)[0]? = some (nm, 0))
    ∧ (∀ (kvs : List (String × Option Int)) (i : Nat) (nm pn : String) (pv : Int),
        kvs[i + 1]? = some (nm, none) → (enumAssign kvs)[i]? = some (pn, pv) →
        (enumAssign kvs)[i + 1]? = some (nm, pv + 1))
    ∧ enumMembers (_make_enum "E" [("A", none), ("B", none), ("C", none)])
        = [("A", 0), ("B", 1), ("C", 2)]
    ∧ enumMembers (_make_enum "E" [("A", some 5), ("B", none)]) = [("A", 5), ("B", 6)] := by
  refine ⟨?_, ?_, ?_, rfl, rfl⟩
  · intro kvs i nm v h
    cases kvs with
    | nil => simp at h
    | cons kv0 rest =>
      simp only [enumAssign]
      exact enumAutoGo_labeled (kv0 :: rest) _ i nm v h
  · intro kvs nm h
    cases kvs with
    | nil => simp at h
    | cons kv0 rest =>
      rw [List.getElem?_cons_zero] at h
      injection h with h
      subst h
      simp only [enumAssign]
      simpa using enumAutoGo_head_none (-1) ((nm, none) :: rest) nm (by simp)
  · intro kvs i nm pn pv h1 h2
    cases kvs with
    | nil => simp at h1
    | cons kv0 rest =>
      simp only [enumAssign] at h2 ⊢
      exact enumAutoGo_succ_none (kv0 :: rest) _ i nm pn pv h1 h2

/-- Witness for c8_enum_auto_numbering at a concrete one-member enum. -/
theorem c8_witness :
    (([("A", (none : Option Int))] : List (String × Option Int))[0]? = some ("A", none))
    ∧ (enumAssign [("A", none)])[0]? = some ("A", 0) :=
  ⟨rfl, c8_enum_auto_numbering.2.1 [("A", none)] "A" rfl⟩

end TP
